import Mathlib

/-!
Shallow embedding of the flopy MF6 definition-to-context compiler:
`flopy/mf6/utils/codegen/context.py` (name resolution) and
`flopy/mf6/utils/codegen/filters.py` (variable transforms, attribute and
constructor-statement derivation).  Python dicts that preserve insertion
order are modelled as association lists, optional dict entries as `Option`,
and Python exceptions as `Except CodegenError`.
-/

/-- Error taxonomy of the compiler (spec section 7).  In the source these
surface as Python exceptions: `schemaError` is the `ValueError` raised by
`Context.Name.from_dfn` when the definition has no name entry,
`invalidVariableError` is the `AssertionError` raised by `Filters.children`,
`missingBlockError` is the `ValueError("Need block")` raised inside
`Filters.attrs`, and `typeError` / `indexError` model the Python `TypeError`
and `IndexError` the source would raise on malformed identities. -/
inductive CodegenError : Type where
  | schemaError (msg : String)
  | invalidVariableError
  | missingBlockError (msg : String)
  | typeError
  | indexError
  deriving DecidableEq, Repr

/-- Context identity: the `Context.Name` named tuple `(l, r)`.  Both
components are optional (the source passes `None` for either slot). -/
structure ContextName : Type where
  l : Option String
  r : Option String
  deriving DecidableEq, Repr

/-- Python sequence value used in the shared-identity membership test of
`Context.Name.from_dfn`: `name` there is a `list[str]` (the result of
`str.split`) while the literals it is compared against are `tuple[str]`
values.  Python `==` between a list and a tuple is always `False`, which the
constructor-sensitive equality below reproduces. -/
inductive PySeq : Type where
  | pylist (xs : List String)
  | pytuple (xs : List String)
  deriving DecidableEq, Repr

/-- Python `==` on sequence values: same constructor and equal elements. -/
def PySeq.eqb : PySeq → PySeq → Bool
  | .pylist a, .pylist b => a == b
  | .pytuple a, .pytuple b => a == b
  | _, _ => false

/-- Python `in` membership test over a list of sequence values. -/
def pyMem (x : PySeq) : List PySeq → Bool
  | [] => false
  | y :: ys => PySeq.eqb x y || pyMem x ys

/-- Auxiliary state machine for `pySplit`: accumulates the current chunk
(in reverse) and emits it at each separator, as Python `str.split` does. -/
def pySplitAux (sep : Char) : List Char → List Char → List String
  | [], acc => [String.mk acc.reverse]
  | c :: cs, acc =>
    if c = sep then String.mk acc.reverse :: pySplitAux sep cs []
    else pySplitAux sep cs (c :: acc)

/-- Model of Python `str.split` with a one-character separator (the source
only ever splits on `"-"`).  `"".split("-") = [""]`, `"a-b".split("-") =
["a", "b"]`, `"a--b".split("-") = ["a", "", "b"]`. -/
def pySplit (sep : Char) (s : String) : List String :=
  pySplitAux sep s.data []

/-- The literals of the shared-identity membership test in
`Context.Name.from_dfn`: `[("gwf", "mvr"), ("gwf", "gnc"), ("gwt", "mvt")]`.
They are tuples in the source, while the tested value is a list. -/
def sharedIdentities : List PySeq :=
  [.pytuple ["gwf", "mvr"], .pytuple ["gwf", "gnc"], .pytuple ["gwt", "mvt"]]

/-- Model of `Context.Name(*name)`: unpacking the split parts into the
two-field named tuple; any other arity raises `TypeError` in Python. -/
def ContextName.star : List String → Except CodegenError ContextName
  | [l, r] => .ok ⟨some l, some r⟩
  | _ => .error CodegenError.typeError

/-- Body of `Context.Name.from_dfn` after `name.split("-")`: dispatch on the
split parts.  `name[1]` on a single-part list raises `IndexError`. -/
def ContextName.fromParts (parts : List String) : Except CodegenError (List ContextName) :=
  match parts with
  | p0 :: p1 :: _ =>
    if p1 = "nam" then
      if p0 = "sim" then
        (ContextName.star parts).map (fun n2 => [⟨none, some p1⟩, n2])
      else
        (ContextName.star parts).map (fun n1 => [n1, ⟨some p0, none⟩])
    else if pyMem (PySeq.pylist parts) sharedIdentities then
      (ContextName.star parts).map (fun n1 => [n1, ⟨none, some p1⟩])
    else
      (ContextName.star parts).map (fun n => [n])
  | _ => .error CodegenError.indexError

/-- Model of `Context.Name.from_dfn`: `dfn.get("name", None)` is falsy when
absent or the empty string, otherwise the name is split on `"-"` and
dispatched. -/
def ContextName.from_dfn (name : Option String) : Except CodegenError (List ContextName) :=
  match name with
  | none => .error (CodegenError.schemaError "DFN must have a 'name' entry")
  | some s =>
    if s = "" then .error (CodegenError.schemaError "DFN must have a 'name' entry")
    else ContextName.fromParts (pySplit '-' s)

/-- Subpackage reference metadata attached to a variable (`var["subpackage"]`
in the source): the exposed key, package-kind abbreviation, parent archetype
name, binding parameter name and instantiation value token. -/
structure Subpackage : Type where
  key : String
  abbr : String
  param : String
  val : String
  parent : String
  deriving DecidableEq, Repr

/-- An input variable as consumed by the filters: the dict keys `name`,
`type`, `shape`, `block`, `tagged`, `items`, `fields`, `choices`, `default`
and `subpackage`.  The three child collections are ordered dicts in the
source and association lists here; an absent key is `none`. -/
inductive Var : Type where
  | mk (name type : String) (shape block : Option String) (tagged : Bool)
       (items fields choices : Option (List (String × Var)))
       (default : Option String) (subpackage : Option Subpackage) : Var

def Var.name : Var → String
  | .mk n _ _ _ _ _ _ _ _ _ => n

def Var.type : Var → String
  | .mk _ t _ _ _ _ _ _ _ _ => t

def Var.shape : Var → Option String
  | .mk _ _ s _ _ _ _ _ _ _ => s

def Var.block : Var → Option String
  | .mk _ _ _ b _ _ _ _ _ _ => b

def Var.tagged : Var → Bool
  | .mk _ _ _ _ tg _ _ _ _ _ => tg

def Var.items : Var → Option (List (String × Var))
  | .mk _ _ _ _ _ it _ _ _ _ => it

def Var.fields : Var → Option (List (String × Var))
  | .mk _ _ _ _ _ _ f _ _ _ => f

def Var.choices : Var → Option (List (String × Var))
  | .mk _ _ _ _ _ _ _ c _ _ => c

def Var.default : Var → Option String
  | .mk _ _ _ _ _ _ _ _ d _ => d

def Var.subpackage : Var → Option Subpackage
  | .mk _ _ _ _ _ _ _ _ _ sp => sp

/-- Python truthiness of an optional dict: falsy when absent or empty. -/
def truthyL {α : Type} : Option (List α) → Bool
  | none => false
  | some [] => false
  | some (_ :: _) => true

/-- Python truthiness of an optional string: falsy when absent or empty. -/
def truthyS : Option String → Bool
  | none => false
  | some s => !(s == "")

/-- Python `in` membership of a string in a list of strings. -/
def memB (k : String) : List String → Bool
  | [] => false
  | x :: xs => k == x || memB k xs

/-- Model of `dict.pop(k)`: remove the entry with key `k` (dict keys are
unique, so removing the first match is removing the entry). -/
def popKey (k : String) : List (String × Var) → List (String × Var)
  | [] => []
  | (k', x) :: rest => if k' == k then rest else (k', x) :: popKey k rest

/-- Whether `pat` is a leading segment of `text`. -/
def leadsList : List Char → List Char → Bool
  | [], _ => true
  | _ :: _, [] => false
  | a :: as, b :: bs => a == b && leadsList (a :: as).tail (b :: bs).tail

/-- Whether `pat` occurs inside `text`. -/
def containsSub (text pat : List Char) : Bool :=
  match text with
  | [] => pat.isEmpty
  | _ :: rest => leadsList pat text || containsSub rest pat

/-- Python `pat in s` substring test, used for `"file" in name`. -/
def hasSubstr (s pat : String) : Bool :=
  containsSub s.data pat.data

/-- Shared step of `Filters.untag`: `keyword = next(iter(fields), None);
if keyword: fields.pop(keyword)`.  Removes the leading entry unless the dict
is empty or its first key is the falsy empty string. -/
def popLead (l : List (String × Var)) : List (String × Var) :=
  match l with
  | (k, _) :: _ => if !(k == "") then popKey k l else l
  | [] => l

/-- Model of `Filters.untag`: when the fields dict is truthy, a tagged
variable loses its first field; an untagged variable whose name contains
`"file"` loses its `filein` / `fileout` entries (presence tested against the
original key list) and then its new first field.  All other variables are
returned unchanged, and only the `fields` entry is ever rewritten. -/
def Filters.untag (v : Var) : Var :=
  match v with
  | .mk name ty shape block tagged items fields choices dflt sub =>
    if !(truthyL fields) then
      .mk name ty shape block tagged items fields choices dflt sub
    else if tagged then
      .mk name ty shape block tagged items (some (popLead (fields.getD []))) choices dflt sub
    else if hasSubstr name "file" then
      let fl := fields.getD []
      let keys := fl.map (fun p => p.1)
      let fl1 := if memB "filein" keys then popKey "filein" fl else fl
      let fl2 := if memB "fileout" keys then popKey "fileout" fl1 else fl1
      .mk name ty shape block tagged items (some (popLead fl2)) choices dflt sub
    else
      .mk name ty shape block tagged items fields choices dflt sub

/-- Model of `Filters.children`: return the first truthy collection among
`items`, `fields`, `choices`, after asserting that the declared type matches
it (`list`, `record`, `union` respectively); `None` when all are falsy. -/
def Filters.children (v : Var) : Except CodegenError (Option (List (String × Var))) :=
  if truthyL v.items then
    if v.type = "list" then .ok v.items else .error CodegenError.invalidVariableError
  else if truthyL v.fields then
    if v.type = "record" then .ok v.fields else .error CodegenError.invalidVariableError
  else if truthyL v.choices then
    if v.type = "union" then .ok v.choices else .error CodegenError.invalidVariableError
  else .ok none

/-- Comma-join of the `name` fields of a child collection, as in
`", ".join([v["name"] for v in children.values()])`. -/
def joinComma (cs : List (String × Var)) : String :=
  String.intercalate ", " (cs.map (fun p => p.2.name))

/-- Model of `Filters.type`.  `Filters.children` is inlined (same branch
structure, identical outcomes) so that the single recursive call — a list
with exactly one child of type `record` or `union` — is on a structural
subterm.  A scalar with a truthy shape renders as `[kind]`, otherwise the
declared kind is returned. -/
def Filters.type : Var → Except CodegenError String
  | .mk _ ty shape _ _ items fields choices _ _ =>
    if truthyL items then
      if ty = "list" then
        match items with
        | some [(k, first)] =>
          if first.type = "record" || first.type = "union" then
            (Filters.type first).map (fun s => "[" ++ s ++ "]")
          else .ok ("[" ++ joinComma [(k, first)] ++ "]")
        | _ => .ok ("[" ++ joinComma (items.getD []) ++ "]")
      else .error CodegenError.invalidVariableError
    else if truthyL fields then
      if ty = "record" then .ok ("(" ++ joinComma (fields.getD []) ++ ")")
      else .error CodegenError.invalidVariableError
    else if truthyL choices then
      if ty = "union" then
        .ok (String.intercalate " | " ((choices.getD []).map (fun p => p.2.name)))
      else .error CodegenError.invalidVariableError
    else if truthyS shape then .ok ("[" ++ ty ++ "]")
    else .ok ty

/-- Model of `Filters.default`: the default entry when truthy, else `None`. -/
def Filters.default (v : Var) : Option String :=
  match v.default with
  | some d => if d = "" then none else some d
  | none => none

/-- Keyword-typed leaf variable, used for concrete test inputs. -/
def leafKw (n : String) : Var :=
  Var.mk n "keyword" none none false none none none none none

/-- String-typed leaf variable, used for concrete test inputs. -/
def leafStr (n : String) : Var :=
  Var.mk n "string" none none false none none none none none

/-- Concrete tagged record from the spec's `utl-spca` scenario:
`tas_filerecord` with fields `tas6`, `filein`, `tas6_filename`. -/
def tasFilerecord : Var :=
  Var.mk "tas_filerecord" "record" none (some "options") true none
    (some [("tas6", leafKw "tas6"), ("filein", leafKw "filein"),
           ("tas6_filename", leafStr "tas6_filename")])
    none none none

/-- Whether the stripping branches of `Filters.untag` apply at all: the
fields dict is truthy and the variable is tagged or file-named. -/
def untagTouched (v : Var) : Bool :=
  truthyL v.fields && (v.tagged || hasSubstr v.name "file")

/-- Tagged record with a single field: one application of `untag` empties
its fields, so a second application is the identity. -/
def singleFieldTagged : Var :=
  Var.mk "obs_filerecord" "record" none none true none
    (some [("obs6", leafKw "obs6")]) none none none

/-- Variable with both items and fields populated, declared as a list. -/
def doublyPopulated : Var :=
  Var.mk "x" "list" none none false
    (some [("a", leafKw "a")]) (some [("b", leafKw "b")]) none none none

/-- Childless variable declared as a list. -/
def childlessList : Var :=
  Var.mk "y" "list" none none false none none none none none

/-- First truthy child collection of a variable, in the accessor's fixed
order `items`, `fields`, `choices`, paired with the type tag that collection
requires. -/
def firstPopulated (v : Var) : Option (String × List (String × Var)) :=
  if truthyL v.items then some ("list", v.items.getD [])
  else if truthyL v.fields then some ("record", v.fields.getD [])
  else if truthyL v.choices then some ("union", v.choices.getD [])
  else none

/-- The children invariant of spec section 3: exactly one collection is
populated and it is the one matching the declared type; composites have
their collection populated, scalars have none. -/
def childrenInvariant (v : Var) : Bool :=
  if v.type = "list" then
    truthyL v.items && !truthyL v.fields && !truthyL v.choices
  else if v.type = "record" then
    !truthyL v.items && truthyL v.fields && !truthyL v.choices
  else if v.type = "union" then
    !truthyL v.items && !truthyL v.fields && truthyL v.choices
  else
    !truthyL v.items && !truthyL v.fields && !truthyL v.choices

/-- Shaped double-precision scalar from the spec's `utl-spca` scenario. -/
def concentrationVar : Var :=
  Var.mk "concentration" "double precision" (some "(ncol*nrow; ncpl)") (some "period")
    false none none none (some "0.") none

/-- Model of `Filters.base`: the base class selected from the identity. -/
def Filters.base (n : ContextName) : String :=
  if n = ⟨some "sim", some "nam"⟩ then "MFSimulationBase"
  else if n.r = none then "MFModel"
  else "MFPackage"

/-- Python `str()` of an optional string as interpolated into an f-string:
`None` renders as `"None"`. -/
def fmtOpt : Option String → String
  | some s => s
  | none => "None"

/-- Python `x or d` on an optional string: `None` and `""` are falsy. -/
def pyOr (o : Option String) (d : String) : String :=
  match o with
  | some s => if s = "" then d else s
  | none => d

/-- Model of `Filters.package_abbr`: the right component for simulation,
solution, exchange or absent left components, otherwise the concatenation
`"".join(ctx_name)`, which needs both components present. -/
def Filters.package_abbr (n : ContextName) : Except CodegenError (Option String) :=
  if [some "sim", some "sln", some "exg", none].contains n.l then .ok n.r
  else
    match n.l, n.r with
    | some a, some b => .ok (some (a ++ b))
    | _, _ => .error CodegenError.typeError

/-- Model of `Filters.dfn_file_name`: exchange identities join both
components with `"-"` (requiring both present), all others use the left
component (or `"sim"` when it is falsy) joined with the right component. -/
def Filters.dfn_file_name (n : ContextName) : Except CodegenError String :=
  if n.l = some "exg" then
    match n.r with
    | some r => .ok ("exg-" ++ r ++ ".dfn")
    | none => .error CodegenError.typeError
  else
    .ok (pyOr n.l "sim" ++ "-" ++ fmtOpt n.r ++ ".dfn")

/-- Scalar kinds of `modflow_devtools.dfn._MF6_SCALARS`, imported by
`Filters.attrs` from the external modflow-devtools dependency: the spec's
"plain" scalar kinds. -/
def MF6_SCALARS : List String :=
  ["keyword", "integer", "double precision", "string"]

/-- The exclusion test at the head of `_attr` inside `Filters.attrs`:
shape-less plain scalars, the fixed names `cvoptions` / `output`, the
`packagedata` field of grid-discretisation packages, and every field but
`packages` of a domain-qualified name-file context produce no attribute. -/
def attrExcluded (n : ContextName) (v : Var) : Bool :=
  (memB v.type MF6_SCALARS && !truthyS v.shape)
  || memB v.name ["cvoptions", "output"]
  || (n.r == some "dis" && v.name == "packagedata")
  || (!(v.name == "packages") && (!(n.l == none) && n.r == some "nam"))

/-- The inclusion test of `_attr`: array-backed (primitive scalar kind with
a truthy shape) or list-backed (`list`, `record` or `union` kind). -/
def attrIncluded (v : Var) : Bool :=
  (memB v.type ["string", "integer", "double precision"] && truthyS v.shape)
  || memB v.type ["list", "record", "union"]

/-- Single quotes around a string, as the f-strings `f"'{x}'"` produce. -/
def sQuote (s : String) : String := "'" ++ s ++ "'"

/-- The domain-qualifier test shared by both argument builders in `_attr`:
`name[0] is not None and name[0] not in ["sim", "sln", "utl", "exg"]`. -/
def domainQualified (n : ContextName) : Bool :=
  match n.l with
  | some l0 => !(memB l0 ["sim", "sln", "utl", "exg"])
  | none => false

/-- Model of the `_attr` helper of `Filters.attrs`: `None` for excluded or
plain variables, a `ListTemplateGenerator` attribute keyed by the
subpackage-reference key for composite subpackage references, otherwise an
`Array`/`List` template-generator attribute for the variable itself; a
missing block raises `ValueError("Need block")` first. -/
def attrFor (n : ContextName) (v : Var) : Except CodegenError (Option String) :=
  if attrExcluded n v then .ok none
  else
    let is_array := memB v.type ["string", "integer", "double precision"] && truthyS v.shape
    if attrIncluded v then
      if !(truthyS v.block) then .error (CodegenError.missingBlockError "Need block")
      else
        match (if !is_array then v.subpackage else none) with
        | some sp =>
          let args0 := [sQuote (fmtOpt n.r), sQuote (v.block.getD ""), sQuote sp.key]
          let args := if domainQualified n
            then sQuote ((n.l.getD "") ++ "6") :: args0 else args0
          .ok (some (sp.key ++ " = ListTemplateGenerator(("
            ++ String.intercalate ", " args ++ "))"))
        | none =>
          let args0 := [sQuote (fmtOpt n.r), sQuote (v.block.getD ""), sQuote v.name]
          let args := if domainQualified n
            then sQuote ((n.l.getD "") ++ "6") :: args0 else args0
          let kind := if is_array then "Array" else "List"
          .ok (some (v.name ++ " = " ++ kind ++ "TemplateGenerator(("
            ++ String.intercalate ", " args ++ "))"))
    else .ok none

/-- The list comprehension `[_attr(v) for v in vars_.values()]` followed by
`filter(None, ...)`: evaluated left to right, the first exception wins. -/
def varAttrs (n : ContextName) : List Var → Except CodegenError (List String)
  | [] => .ok []
  | v :: rest =>
    match attrFor n v with
    | .error e => .error e
    | .ok a =>
      match varAttrs n rest with
      | .error e => .error e
      | .ok restAs => .ok (match a with | some s => s :: restAs | none => restAs)

/-- A compiled context: its identity, its flattened insertion-ordered
variable dict, and the remaining entries of the render context (the
Definition's non-block metadata together with the template globals), whose
values only ever flow into the serialised-schema attribute and are therefore
modelled as opaque strings. -/
structure Context : Type where
  name : ContextName
  vars : List (String × Var)
  extra : List (String × String)

/-- The `dfn_skip` key list of `Filters.attrs`: template globals and the
context entries that are not Definition metadata. -/
def dfn_skip : List String :=
  ["range", "lipsum", "cycler", "joiner", "dict", "namespace", "macros",
   "name", "vars", "description", "title", "parent"]

/-- The dict comprehension `{k: v for k, v in ctx.items() if k not in
dfn_skip}` of `Filters.attrs`. -/
def dfnDict (ctx : Context) : List (String × String) :=
  ctx.extra.filter (fun kv => !(memB kv.1 dfn_skip))

/-- Model of `Filters.attrs`.  The serialisation of the retained metadata is
performed by the external `pprint.pformat`, taken here as a parameter.  The
variable attributes are derived first, then the schema-file name, and
package-archetype contexts append the four metadata attributes
`package_abbr`, `_package_type`, `dfn_file_name` and `dfn`. -/
def Filters.attrs (pformat : List (String × String) → String) (ctx : Context) :
    Except CodegenError (List String) :=
  match varAttrs ctx.name (ctx.vars.map (fun p => p.2)) with
  | .error e => .error e
  | .ok va =>
    match Filters.dfn_file_name ctx.name with
    | .error e => .error e
    | .ok dfnName =>
      if Filters.base ctx.name = "MFPackage" then
        match Filters.package_abbr ctx.name with
        | .error e => .error e
        | .ok ab =>
          .ok (va ++
            ["package_abbr = '" ++ fmtOpt ab ++ "'",
             "_package_type = '" ++ fmtOpt ctx.name.r ++ "'",
             "dfn_file_name = '" ++ dfnName ++ "'",
             "dfn = " ++ pformat (dfnDict ctx)])
      else .ok va

/-- Composite variable without an owning block, for the C8 witness. -/
def blocklessRecord : Var :=
  Var.mk "rec" "record" none none false none (some [("a", leafKw "a")]) none none none

/-- The abbreviation actually appended for a package context, written out
from the identity: the right component under a simulation / solution /
exchange / absent left component, otherwise left concatenated with right. -/
def abbrSpec (n : ContextName) : String :=
  if [some "sim", some "sln", some "exg", none].contains n.l then fmtOpt n.r
  else (n.l.getD "") ++ fmtOpt n.r

/-- Python reserved words (`keyword.kwlist`), used by the generator to
suffix colliding variable names with an underscore. -/
def kwlist : List String :=
  ["False", "None", "True", "and", "as", "assert", "async", "await", "break",
   "class", "continue", "def", "del", "elif", "else", "except", "finally",
   "for", "from", "global", "if", "is", "lambda", "nonlocal", "not", "or",
   "pass", "raise", "return", "try", "while", "with", "yield", "in",
   "import"]

/-- Reserved-word mangling inside `Filters.init`:
`name = f"{name}_" if name in kwlist else name`. -/
def mangle (n : String) : String :=
  if memB n kwlist then n ++ "_" else n

/-- Exclusion list of `_should_set` in the simulation branch of
`Filters.init`. -/
def simSkip : List String :=
  ["tdis6", "models", "exchanges", "mxiter", "solutiongroup", "hpc_data"]

/-- Exclusion list of `_should_set` in the model branch of `Filters.init`. -/
def modelSkip : List String :=
  ["export_netcdf", "nc_filerecord", "packages"]

/-- Exclusion list of `_should_build` in the package branch of
`Filters.init`. -/
def packageSkip : List String :=
  ["simulation", "model", "package", "parent_model", "parent_package",
   "parent_model_or_package", "parent_file", "modelname", "model_nam_file",
   "export_netcdf", "nc_filerecord", "method", "interpolation_method_single",
   "sfac", "output"]

/-- Constructor statements produced by `Filters.init`, one constructor per
f-string the source appends; `renderStmt` recovers the exact text. -/
inductive Stmt : Type where
  | setData (n : String)
  | mirror (n : String)
  | createPkg (abbr param : String)
  | buildNamData (key : String)
  | buildData (underscore : Bool) (target lit : String)
  | buildRefData (key : String)
  | buildChild (abbr val param key : String)
  deriving DecidableEq, Repr

/-- The f-string each `Stmt` constructor stands for in `Filters.init`. -/
def renderStmt : Stmt → String
  | .setData n => "self.name_file." ++ n ++ ".set_data(" ++ n ++ ")"
  | .mirror n => "self." ++ n ++ " = self.name_file." ++ n
  | .createPkg a p => "self." ++ p ++ " = self._create_package('" ++ a ++ "', " ++ p ++ ")"
  | .buildNamData k => "self._" ++ k ++ " = self.build_mfdata('" ++ k ++ "', None)"
  | .buildData us tgt lit =>
    "self." ++ (if us then "_" else "") ++ tgt
      ++ " = self.build_mfdata('" ++ lit ++ "', " ++ tgt ++ ")"
  | .buildRefData k => "self._" ++ k ++ " = self.build_mfdata('" ++ k ++ "', None)"
  | .buildChild a v p k =>
    "self._" ++ a ++ "_package = self.build_child_package('" ++ a ++ "', " ++ v
      ++ ", '" ++ p ++ "', self._" ++ k ++ ")"

/-- Shared loop of the simulation and model branches of `Filters.init`:
bind-and-mirror statements for every variable not in the exclusion list,
and one `_create_package` statement for the first occurrence of each
subpackage-reference key (`refs` is the set of keys already seen). -/
def simModelLoop (excl : List String) : List Var → List String → List Stmt
  | [], _ => []
  | v :: rest, seen =>
    let n := mangle v.name
    let setStmts := if !(memB v.name excl) then [Stmt.setData n, Stmt.mirror n] else []
    match v.subpackage with
    | some sp =>
      if !(memB sp.key seen) then
        setStmts ++ [Stmt.createPkg sp.abbr sp.param]
          ++ simModelLoop excl rest (sp.key :: seen)
      else setStmts ++ simModelLoop excl rest seen
    | none => setStmts ++ simModelLoop excl rest seen

/-- `_should_build` of the package branch: a subpackage reference is only
built directly in the `(None, "nam")` context, and the fixed name list is
always excluded. -/
def packageShouldBuild (ctxName : ContextName) (v : Var) : Bool :=
  match v.subpackage with
  | some _ =>
    if ctxName = (⟨none, some "nam"⟩ : ContextName) then !(memB v.name packageSkip)
    else false
  | none => !(memB v.name packageSkip)

/-- Package branch of `Filters.init`: a `build_mfdata` statement per
non-excluded variable (through the reference key and a `None` placeholder in
the name-file context), and — outside name-file contexts — a placeholder
binder plus a `build_child_package` statement for the first occurrence of
each subpackage-reference key. -/
def packageLoop (ctxName : ContextName) : List Var → List String → List Stmt
  | [], _ => []
  | v :: rest, seen =>
    let n := mangle v.name
    let builds :=
      if packageShouldBuild ctxName v then
        match v.subpackage with
        | some sp =>
          if ctxName = (⟨none, some "nam"⟩ : ContextName) then [Stmt.buildNamData sp.key]
          else [Stmt.buildData true (n.replace "-" "_")
            (if n.endsWith "_" then n.dropRight 1 else n)]
        | none =>
          [Stmt.buildData false (n.replace "-" "_")
            (if n.endsWith "_" then n.dropRight 1 else n)]
      else []
    match v.subpackage with
    | some sp =>
      if !(memB sp.key seen) && !(ctxName.r == some "nam") then
        builds ++ [Stmt.buildRefData sp.key, Stmt.buildChild sp.abbr sp.val sp.param sp.key]
          ++ packageLoop ctxName rest (sp.key :: seen)
      else builds ++ packageLoop ctxName rest seen
    | none => builds ++ packageLoop ctxName rest seen

/-- Statement derivation of `Filters.init`, dispatched on the base class. -/
def initStmts (ctx : Context) : List Stmt :=
  if Filters.base ctx.name = "MFSimulationBase" then
    simModelLoop simSkip (ctx.vars.map (fun p => p.2)) []
  else if Filters.base ctx.name = "MFModel" then
    simModelLoop modelSkip (ctx.vars.map (fun p => p.2)) []
  else
    packageLoop ctx.name (ctx.vars.map (fun p => p.2)) []

/-- Model of `Filters.init`: the rendered statements, with
`filter(None, ...)` dropping falsy (empty) strings. -/
def Filters.init (ctx : Context) : List String :=
  ((initStmts ctx).map renderStmt).filter (fun s => !(s == ""))

/-- Child-package-construction statements: `_create_package` in the
simulation/model branches, `build_child_package` in the package branch. -/
def isChildCreate : Stmt → Bool
  | .createPkg _ _ => true
  | .buildChild _ _ _ _ => true
  | _ => false

/-- Subpackage-reference keys carried by a variable list, in order. -/
def subKeys (vs : List Var) : List String :=
  vs.filterMap (fun v => v.subpackage.map (fun sp => sp.key))

/-- Number of distinct strings in a list. -/
def distinctKeys : List String → Nat
  | [] => 0
  | k :: rest => 1 + distinctKeys (rest.filter (fun x => !(x == k)))
termination_by l => l.length
decreasing_by
  simp only [List.length_cons]
  exact Nat.lt_succ_of_le (List.length_filter_le _ _)

/-- Reference fold of the dedup logic: how many keys not yet in `seen` the
loop will encounter for the first time. -/
def newKeyCount : List Var → List String → Nat
  | [], _ => 0
  | v :: rest, seen =>
    match v.subpackage with
    | some sp =>
      if !(memB sp.key seen) then 1 + newKeyCount rest (sp.key :: seen)
      else newKeyCount rest seen
    | none => newKeyCount rest seen

/-- Time-series subpackage reference used in the C7 counterexample. -/
def tsRef : Subpackage :=
  ⟨"ts_filerecord", "ts", "timeseries", "timeseries", "parent_package"⟩

/-- Name-file package context carrying two variables that share one
subpackage-reference key. -/
def namPkgCtx : Context :=
  ⟨⟨some "gwf", some "nam"⟩,
   [("ts_filerecord",
     Var.mk "ts_filerecord" "record" none (some "options") false none none none none
       (some tsRef)),
    ("ts_filerecord2",
     Var.mk "ts_filerecord2" "record" none (some "options") false none none none none
       (some tsRef))],
   []⟩

/-- C9: a Definition lacking an identity string (no name entry, or an empty
one) makes the Name Resolver fail with the schema error and produce no
context identities.  The source raises `ValueError("DFN must have a 'name'
entry")`, the concrete form of the spec's `SchemaError("missing name")`. -/
theorem from_dfn_missing_name_fails :
    ContextName.from_dfn none
      = .error (CodegenError.schemaError "DFN must have a 'name' entry")
    ∧ ContextName.from_dfn (some "")
      = .error (CodegenError.schemaError "DFN must have a 'name' entry") :=
  ⟨rfl, rfl⟩

/-- C4: an identity whose right component is the name-file marker `"nam"`
resolves to `(None, "nam")` then `("sim", "nam")` when the left component is
the simulation marker, and to `(left, "nam")` then `(left, None)` otherwise;
in particular `"sim-nam"` yields the two identities in that order. -/
theorem from_dfn_namefile_identities :
    (∀ l : String, ContextName.fromParts [l, "nam"]
      = .ok (if l = "sim" then [⟨none, some "nam"⟩, ⟨some "sim", some "nam"⟩]
             else [⟨some l, some "nam"⟩, ⟨some l, none⟩]))
    ∧ ContextName.from_dfn (some "sim-nam")
      = .ok [⟨none, some "nam"⟩, ⟨some "sim", some "nam"⟩] := by
  refine ⟨fun l => ?_, rfl⟩
  by_cases h : l = "sim" <;>
    simp [ContextName.fromParts, ContextName.star, Except.map, h]

/-- C1 (code bug): the shared-identity branch of `Context.Name.from_dfn` is
dead code, because the split result is a Python list while the branch
compares it against tuples, which never compare equal.  A definition named
`"gwf-mvr"` therefore resolves to the single identity `("gwf", "mvr")`
instead of the documented pair `("gwf", "mvr")`, `(None, "mvr")`. -/
theorem gwf_mvr_resolves_to_single_identity :
    ContextName.from_dfn (some "gwf-mvr") = .ok [⟨some "gwf", some "mvr"⟩]
    ∧ ∀ parts : List String, pyMem (PySeq.pylist parts) sharedIdentities = false :=
  ⟨rfl, fun _ => rfl⟩

theorem popKey_sublist (k : String) (l : List (String × Var)) :
    (popKey k l).Sublist l := by
  induction l with
  | nil => exact List.Sublist.refl []
  | cons p rest ih =>
    simp only [popKey]
    split
    · exact List.sublist_cons_self p rest
    · exact List.Sublist.cons₂ p ih

theorem popLead_sublist (l : List (String × Var)) :
    (popLead l).Sublist l := by
  cases l with
  | nil => exact List.Sublist.refl []
  | cons p rest =>
    obtain ⟨k, x⟩ := p
    simp only [popLead]
    split
    · exact popKey_sublist k ((k, x) :: rest)
    · exact List.Sublist.refl _

theorem truthyL_eq_some {α : Type} {o : Option (List α)} (h : truthyL o = true) :
    o = some (o.getD []) := by
  cases o with
  | none => simp [truthyL] at h
  | some l => rfl

/-- Structure lemma for `Filters.untag`: every component except `fields` is
copied through unchanged, the new fields are a sublist of the old, and a
falsy fields dict means the whole variable is returned as-is. -/
theorem untag_mk (nm ty : String) (sh bl : Option String) (tg : Bool)
    (it fl ch : Option (List (String × Var))) (df : Option String)
    (sp : Option Subpackage) :
    ∃ fl' : Option (List (String × Var)),
      Filters.untag (Var.mk nm ty sh bl tg it fl ch df sp)
        = Var.mk nm ty sh bl tg it fl' ch df sp
      ∧ (fl'.getD []).Sublist (fl.getD [])
      ∧ (truthyL fl = false → fl' = fl) := by
  unfold Filters.untag
  by_cases h1 : truthyL fl
  · simp only [h1, Bool.not_true, Bool.false_eq_true, if_false]
    by_cases h2 : tg
    · subst h2
      refine ⟨some (popLead (fl.getD [])), by simp, ?_, by simp [h1]⟩
      simpa using popLead_sublist (fl.getD [])
    · simp only [h2, Bool.false_eq_true, if_false]
      by_cases h3 : hasSubstr nm "file"
      · simp only [h3, if_true]
        refine ⟨_, rfl, ?_, by simp [h1]⟩
        simp only [Option.getD_some]
        have s1 : ((if memB "filein" ((fl.getD []).map (fun p => p.1)) = true
            then popKey "filein" (fl.getD []) else fl.getD [])).Sublist (fl.getD []) := by
          split
          · exact popKey_sublist _ _
          · exact List.Sublist.refl _
        have s2 : ((if memB "fileout" ((fl.getD []).map (fun p => p.1)) = true
            then popKey "fileout" (if memB "filein" ((fl.getD []).map (fun p => p.1)) = true
              then popKey "filein" (fl.getD []) else fl.getD [])
            else (if memB "filein" ((fl.getD []).map (fun p => p.1)) = true
              then popKey "filein" (fl.getD []) else fl.getD []))).Sublist
            (if memB "filein" ((fl.getD []).map (fun p => p.1)) = true
              then popKey "filein" (fl.getD []) else fl.getD []) := by
          split
          · exact popKey_sublist _ _
          · exact List.Sublist.refl _
        exact ((popLead_sublist _).trans s2).trans s1
      · simp only [h3, Bool.false_eq_true, if_false]
        exact ⟨fl, rfl, List.Sublist.refl _, fun _ => rfl⟩
  · simp only [h1, Bool.not_false, if_true]
    exact ⟨fl, rfl, List.Sublist.refl _, fun _ => rfl⟩

/-- C10: tag-stripping only ever rewrites the record fields of a variable.
Every other component — name, type, shape, block, tagged flag, list items,
union choices, default, subpackage reference — is unchanged, the surviving
fields form a sublist of the original ones, and a variable whose fields
dict is absent or empty (in particular a tagged list variable with items
children, or a tagged union variable with choices children) is returned
entirely unchanged. -/
theorem untag_touches_only_fields (v : Var) :
    ((v.fields = none ∨ v.fields = some []) → Filters.untag v = v)
    ∧ (Filters.untag v).name = v.name
    ∧ (Filters.untag v).type = v.type
    ∧ (Filters.untag v).shape = v.shape
    ∧ (Filters.untag v).block = v.block
    ∧ (Filters.untag v).tagged = v.tagged
    ∧ (Filters.untag v).items = v.items
    ∧ (Filters.untag v).choices = v.choices
    ∧ (Filters.untag v).default = v.default
    ∧ (Filters.untag v).subpackage = v.subpackage
    ∧ ((Filters.untag v).fields.getD []).Sublist (v.fields.getD []) := by
  cases v with
  | mk nm ty sh bl tg it fl ch df sp =>
    obtain ⟨fl', he, hsub, hid⟩ := untag_mk nm ty sh bl tg it fl ch df sp
    refine ⟨?_, ?_⟩
    · intro h
      have hf : truthyL fl = false := by
        rcases h with h | h <;> simp [Var.fields] at h <;> subst h <;> rfl
      rw [he, hid hf]
    · rw [he]
      exact ⟨rfl, rfl, rfl, rfl, rfl, rfl, rfl, rfl, rfl, hsub⟩

/-- C2 counterexample: applying `Filters.untag` twice to a tagged record
with three fields strips two of them, so the children after two applications
differ from the children after one. -/
theorem untag_not_idempotent_on_tagged_record :
    (Filters.untag tasFilerecord).fields
      = some [("filein", leafKw "filein"), ("tas6_filename", leafStr "tas6_filename")]
    ∧ (Filters.untag (Filters.untag tasFilerecord)).fields
      = some [("tas6_filename", leafStr "tas6_filename")]
    ∧ (Filters.untag (Filters.untag tasFilerecord)).fields
      ≠ (Filters.untag tasFilerecord).fields := by
  refine ⟨rfl, rfl, ?_⟩
  intro h
  rw [show (Filters.untag (Filters.untag tasFilerecord)).fields
        = some [("tas6_filename", leafStr "tas6_filename")] from rfl,
      show (Filters.untag tasFilerecord).fields
        = some [("filein", leafKw "filein"), ("tas6_filename", leafStr "tas6_filename")] from rfl]
    at h
  simp at h

theorem untag_id_of_untouched (v : Var) (h : untagTouched v = false) :
    Filters.untag v = v := by
  cases v with
  | mk nm ty sh bl tg it fl ch df sp =>
    simp only [untagTouched, Var.fields, Var.tagged, Var.name,
      Bool.and_eq_false_iff, Bool.or_eq_false_iff] at h
    unfold Filters.untag
    rcases h with h | ⟨h2, h3⟩
    · simp [h]
    · by_cases h1 : truthyL fl
      · simp [h1, h2, h3]
      · simp [h1]

theorem untag_id_of_falsy_fields (v : Var) (h : truthyL v.fields = false) :
    Filters.untag v = v := by
  cases v with
  | mk nm ty sh bl tg it fl ch df sp =>
    simp only [Var.fields] at h
    unfold Filters.untag
    simp [h]

/-- C2 (amended): tag-stripping is idempotent for every variable the
stripping branches do not touch (fields absent or empty, or neither tagged
nor file-named), and for every variable left with an empty fields dict by
the first application; a tagged record with two or more remaining fields is
a counterexample to unconditional idempotence. -/
theorem untag_idempotent_amended (v : Var)
    (h : untagTouched v = false ∨ (Filters.untag v).fields = some []) :
    Filters.untag (Filters.untag v) = Filters.untag v := by
  rcases h with h | h
  · rw [untag_id_of_untouched v h, untag_id_of_untouched v h]
  · exact untag_id_of_falsy_fields _ (by rw [h]; rfl)

theorem untag_idempotent_amended_witness :
    Filters.untag (Filters.untag singleFieldTagged) = Filters.untag singleFieldTagged :=
  untag_idempotent_amended singleFieldTagged (Or.inr rfl)

theorem untag_touches_only_fields_witness :
    Filters.untag (leafKw "print_input") = leafKw "print_input" :=
  (untag_touches_only_fields (leafKw "print_input")).1 (Or.inl rfl)

/-- C3 counterexample: a list-typed variable with both `items` and `fields`
populated is accepted by the children accessor (it returns `items` and never
looks at `fields`), and a list-typed variable with no populated collection
yields `None` rather than an error — in both situations the claim demands
`InvalidVariableError`. -/
theorem children_accepts_claimed_invalid_variables :
    Filters.children doublyPopulated = .ok (some [("a", leafKw "a")])
    ∧ truthyL doublyPopulated.items = true
    ∧ truthyL doublyPopulated.fields = true
    ∧ Filters.children childlessList = .ok none
    ∧ childlessList.type = "list" :=
  ⟨rfl, rfl, rfl, rfl, rfl⟩

/-- C3 (amended): the children accessor inspects only the first populated
collection in the order items, fields, choices: it fails with
`InvalidVariableError` exactly when that collection's required type tag
differs from the declared type, returns that collection when it matches,
and signals no children when every collection is empty or absent — even for
list/record/union-typed variables, and regardless of whether later
collections are also populated. -/
theorem children_checks_first_populated (v : Var) :
    Filters.children v
      = match firstPopulated v with
        | none => .ok none
        | some (t, cs) =>
          if v.type = t then .ok (some cs) else .error CodegenError.invalidVariableError := by
  unfold Filters.children firstPopulated
  by_cases h1 : truthyL v.items
  · simp only [h1, if_true]
    rw [← truthyL_eq_some h1]
  · simp only [h1, Bool.false_eq_true, if_false]
    by_cases h2 : truthyL v.fields
    · simp only [h2, if_true]
      rw [← truthyL_eq_some h2]
    · simp only [h2, Bool.false_eq_true, if_false]
      by_cases h3 : truthyL v.choices
      · simp only [h3, if_true]
        rw [← truthyL_eq_some h3]
      · simp only [h3, Bool.false_eq_true, if_false]

@[simp] theorem Var.type_mk (nm ty : String) (sh bl : Option String) (tg : Bool)
    (it fl ch : Option (List (String × Var))) (df : Option String) (sp : Option Subpackage) :
    (Var.mk nm ty sh bl tg it fl ch df sp).type = ty := rfl

@[simp] theorem Var.shape_mk (nm ty : String) (sh bl : Option String) (tg : Bool)
    (it fl ch : Option (List (String × Var))) (df : Option String) (sp : Option Subpackage) :
    (Var.mk nm ty sh bl tg it fl ch df sp).shape = sh := rfl

@[simp] theorem Var.items_mk (nm ty : String) (sh bl : Option String) (tg : Bool)
    (it fl ch : Option (List (String × Var))) (df : Option String) (sp : Option Subpackage) :
    (Var.mk nm ty sh bl tg it fl ch df sp).items = it := rfl

@[simp] theorem Var.fields_mk (nm ty : String) (sh bl : Option String) (tg : Bool)
    (it fl ch : Option (List (String × Var))) (df : Option String) (sp : Option Subpackage) :
    (Var.mk nm ty sh bl tg it fl ch df sp).fields = fl := rfl

@[simp] theorem Var.choices_mk (nm ty : String) (sh bl : Option String) (tg : Bool)
    (it fl ch : Option (List (String × Var))) (df : Option String) (sp : Option Subpackage) :
    (Var.mk nm ty sh bl tg it fl ch df sp).choices = ch := rfl

@[simp] theorem truthyL_none {α : Type} : truthyL (α := α) none = false := rfl

@[simp] theorem truthyL_some_nil {α : Type} : truthyL (α := α) (some []) = false := rfl

@[simp] theorem truthyL_some_cons {α : Type} (x : α) (xs : List α) :
    truthyL (some (x :: xs)) = true := rfl

/-- C5: under the children invariant, type stringification returns the
declared kind for a shape-less scalar, `[kind]` for a shaped scalar, the
recursive string in brackets for a list with a single record/union child,
the bracketed comma-join of child names for any other list, the
parenthesised comma-join for a record, and the bar-join for a union. -/
theorem type_stringification_cases (v : Var) (h : childrenInvariant v = true) :
    (v.type ≠ "list" → v.type ≠ "record" → v.type ≠ "union" →
      Filters.type v = .ok (if truthyS v.shape then "[" ++ v.type ++ "]" else v.type))
    ∧ (v.type = "record" →
      Filters.type v = .ok ("(" ++ joinComma (v.fields.getD []) ++ ")"))
    ∧ (v.type = "union" →
      Filters.type v
        = .ok (String.intercalate " | " ((v.choices.getD []).map (fun p => p.2.name))))
    ∧ (v.type = "list" →
      (∀ k c, v.items = some [(k, c)] → (c.type = "record" ∨ c.type = "union") →
        Filters.type v = (Filters.type c).map (fun s => "[" ++ s ++ "]"))
      ∧ ((∀ k c, v.items = some [(k, c)] → c.type ≠ "record" ∧ c.type ≠ "union") →
        Filters.type v = .ok ("[" ++ joinComma (v.items.getD []) ++ "]"))) := by
  cases v with
  | mk nm ty sh bl tg it fl ch df sp =>
    simp only [Var.type_mk, Var.shape_mk, Var.items_mk, Var.fields_mk, Var.choices_mk]
    refine ⟨?_, ?_, ?_, ?_⟩
    · intro h1 h2 h3
      simp [childrenInvariant, h1, h2, h3] at h
      obtain ⟨⟨hi, hf⟩, hc⟩ := h
      unfold Filters.type
      simp [hi, hf, hc, h1]
      split <;> rfl
    · intro h2
      subst h2
      simp [childrenInvariant] at h
      obtain ⟨⟨hi, hf⟩, hc⟩ := h
      unfold Filters.type
      simp [hi, hf, hc]
    · intro h3
      subst h3
      simp [childrenInvariant] at h
      obtain ⟨⟨hi, hf⟩, hc⟩ := h
      unfold Filters.type
      simp [hi, hf, hc]
    · intro h1
      subst h1
      simp [childrenInvariant] at h
      obtain ⟨⟨hi, hf⟩, hc⟩ := h
      constructor
      · intro k c hit hrc
        subst hit
        conv_lhs => unfold Filters.type
        rcases hrc with hrc | hrc <;> simp [hrc]
      · intro hno
        obtain ⟨x, xs, hx⟩ : ∃ x xs, it = some (x :: xs) := by
          cases it with
          | none => simp [truthyL] at hi
          | some l =>
            cases l with
            | nil => simp [truthyL] at hi
            | cons x xs => exact ⟨x, xs, rfl⟩
        subst hx
        cases xs with
        | nil =>
          obtain ⟨k, c⟩ := x
          obtain ⟨hr, hu⟩ := hno k c rfl
          unfold Filters.type
          simp [hr, hu]
        | cons y ys =>
          unfold Filters.type
          simp [joinComma]

theorem type_stringification_cases_witness :
    Filters.type concentrationVar = .ok "[double precision]" :=
  (type_stringification_cases concentrationVar rfl).1
    (by decide) (by decide) (by decide)

theorem attrFor_missing_block (n : ContextName) (v : Var)
    (h1 : attrExcluded n v = false) (h2 : attrIncluded v = true)
    (h3 : truthyS v.block = false) :
    attrFor n v = .error (CodegenError.missingBlockError "Need block") := by
  unfold attrFor
  simp [h1, h2, h3]

theorem attrFor_total (n : ContextName) (v : Var) :
    attrFor n v = .error (CodegenError.missingBlockError "Need block")
    ∨ ∃ a, attrFor n v = .ok a := by
  unfold attrFor
  by_cases h1 : attrExcluded n v
  · right; exact ⟨none, by simp [h1]⟩
  · by_cases h2 : attrIncluded v
    · by_cases h3 : truthyS v.block
      · right
        simp only [h1, Bool.false_eq_true, if_false, h2, if_true, h3,
          Bool.not_true, Bool.false_eq_true, if_false]
        split
        · exact ⟨_, rfl⟩
        · exact ⟨_, rfl⟩
      · left; simp [h1, h2, h3]
    · right; exact ⟨none, by simp [h1, h2]⟩

theorem varAttrs_error_of_mem (n : ContextName) (vs : List Var)
    (h : ∃ v ∈ vs, attrIncluded v = true ∧ attrExcluded n v = false
      ∧ truthyS v.block = false) :
    varAttrs n vs = .error (CodegenError.missingBlockError "Need block") := by
  induction vs with
  | nil => obtain ⟨v, hv, _⟩ := h; cases hv
  | cons w rest ih =>
    obtain ⟨v, hv, hinc, hexc, hblk⟩ := h
    rcases List.mem_cons.mp hv with rfl | hv'
    · unfold varAttrs
      rw [attrFor_missing_block n v hexc hinc hblk]
    · have hrest := ih ⟨v, hv', hinc, hexc, hblk⟩
      unfold varAttrs
      rcases attrFor_total n w with he | ⟨a, ha⟩
      · rw [he]
      · rw [ha, hrest]

/-- C8: every variable that passes the inclusion test (array-backed or
list-backed), is not excluded, and lacks a truthy owning block name makes
attribute derivation fail with the missing-block error, whatever the
pretty-printer and whatever the other variables contribute. -/
theorem attrs_missing_block_error (pformat : List (String × String) → String)
    (ctx : Context)
    (h : ∃ p ∈ ctx.vars, attrIncluded p.2 = true ∧ attrExcluded ctx.name p.2 = false
      ∧ truthyS p.2.block = false) :
    Filters.attrs pformat ctx = .error (CodegenError.missingBlockError "Need block") := by
  have hva : varAttrs ctx.name (ctx.vars.map (fun p => p.2))
      = .error (CodegenError.missingBlockError "Need block") := by
    apply varAttrs_error_of_mem
    obtain ⟨p, hp, h1, h2, h3⟩ := h
    exact ⟨p.2, List.mem_map_of_mem _ hp, h1, h2, h3⟩
  unfold Filters.attrs
  rw [hva]

theorem attrs_missing_block_error_witness :
    Filters.attrs (fun _ => "")
        ⟨⟨some "utl", some "spca"⟩, [("rec", blocklessRecord)], []⟩
      = .error (CodegenError.missingBlockError "Need block") :=
  attrs_missing_block_error (fun _ => "")
    ⟨⟨some "utl", some "spca"⟩, [("rec", blocklessRecord)], []⟩
    ⟨("rec", blocklessRecord), List.Mem.head _, rfl, rfl, rfl⟩

/-- C6 counterexample: a package context with no variables receives four
appended metadata attributes, not three — the fourth is the serialised
schema (`dfn = ...`) attribute. -/
theorem attrs_package_appends_not_three :
    Filters.base ⟨some "utl", some "spca"⟩ = "MFPackage"
    ∧ Filters.attrs (fun _ => "") ⟨⟨some "utl", some "spca"⟩, [], []⟩
        = .ok ["package_abbr = 'utlspca'", "_package_type = 'spca'",
               "dfn_file_name = 'utl-spca.dfn'", "dfn = "]
    ∧ (["package_abbr = 'utlspca'", "_package_type = 'spca'",
        "dfn_file_name = 'utl-spca.dfn'", "dfn = "] : List String).length = 4 :=
  ⟨rfl, rfl, rfl⟩

/-- C6 (amended): a package-archetype context appends exactly four metadata
attributes after the variable-derived attributes: the abbreviation, the type
tag equal to the identity's right component, the schema-file name (the two
components joined by the separator for exchange contexts, otherwise
left-or-"sim" joined with right), and the serialised-schema attribute
rendered by the external pretty-printer. -/
theorem attrs_package_appends_four (pformat : List (String × String) → String)
    (ctx : Context) (va : List String) (r0 : String)
    (hb : Filters.base ctx.name = "MFPackage")
    (hr : ctx.name.r = some r0)
    (hva : varAttrs ctx.name (ctx.vars.map (fun p => p.2)) = .ok va) :
    Filters.attrs pformat ctx = .ok (va ++
      ["package_abbr = '" ++ abbrSpec ctx.name ++ "'",
       "_package_type = '" ++ r0 ++ "'",
       "dfn_file_name = '" ++ (if ctx.name.l = some "exg" then "exg-" ++ r0 ++ ".dfn"
          else pyOr ctx.name.l "sim" ++ "-" ++ r0 ++ ".dfn") ++ "'",
       "dfn = " ++ pformat (dfnDict ctx)]) := by
  have hdfn : Filters.dfn_file_name ctx.name
      = .ok (if ctx.name.l = some "exg" then "exg-" ++ r0 ++ ".dfn"
          else pyOr ctx.name.l "sim" ++ "-" ++ r0 ++ ".dfn") := by
    unfold Filters.dfn_file_name
    by_cases hl : ctx.name.l = some "exg"
    · simp [hl, hr]
    · simp [hl, hr, fmtOpt]
  have hab : Filters.package_abbr ctx.name = .ok (some (abbrSpec ctx.name)) := by
    unfold Filters.package_abbr abbrSpec
    by_cases hl : [some "sim", some "sln", some "exg", none].contains ctx.name.l = true
    · rw [if_pos hl, if_pos hl, hr]
      rfl
    · have hlne : ctx.name.l ≠ none := by
        intro hn
        rw [hn] at hl
        exact hl (by decide)
      obtain ⟨a, ha⟩ := Option.ne_none_iff_exists'.mp hlne
      rw [if_neg hl, if_neg hl, hr, ha]
      rfl
  unfold Filters.attrs
  simp [hva, hdfn, hab, hb, hr, fmtOpt]

theorem attrs_package_appends_four_witness :
    Filters.attrs (fun _ => "pformatted") ⟨⟨some "utl", some "spca"⟩, [], []⟩
      = .ok ([] ++
        ["package_abbr = '" ++ abbrSpec ⟨some "utl", some "spca"⟩ ++ "'",
         "_package_type = '" ++ "spca" ++ "'",
         "dfn_file_name = '"
           ++ (if (ContextName.mk (some "utl") (some "spca")).l = some "exg"
               then "exg-" ++ "spca" ++ ".dfn"
               else pyOr (ContextName.mk (some "utl") (some "spca")).l "sim"
                 ++ "-" ++ "spca" ++ ".dfn") ++ "'",
         "dfn = " ++ (fun _ => "pformatted")
           (dfnDict ⟨⟨some "utl", some "spca"⟩, [], []⟩)]) :=
  attrs_package_appends_four (fun _ => "pformatted")
    ⟨⟨some "utl", some "spca"⟩, [], []⟩ [] "spca" rfl rfl rfl

theorem countP_simModelLoop (excl : List String) (vs : List Var) (seen : List String) :
    (simModelLoop excl vs seen).countP isChildCreate = newKeyCount vs seen := by
  induction vs generalizing seen with
  | nil => rfl
  | cons v rest ih =>
    unfold simModelLoop newKeyCount
    cases hsp : v.subpackage with
    | none =>
      by_cases he : memB v.name excl <;>
        simp [he, List.countP_append, isChildCreate, List.countP_cons, ih]
    | some sp =>
      by_cases hk : memB sp.key seen <;> by_cases he : memB v.name excl <;>
        simp [hk, he, List.countP_append, isChildCreate, List.countP_cons, ih,
          Nat.add_comm]

theorem countP_packageLoop (n : ContextName) (vs : List Var) (seen : List String) :
    (packageLoop n vs seen).countP isChildCreate
      = if n.r = some "nam" then 0 else newKeyCount vs seen := by
  induction vs generalizing seen with
  | nil => simp [packageLoop, newKeyCount]
  | cons v rest ih =>
    unfold packageLoop newKeyCount
    cases hsp : v.subpackage with
    | none =>
      by_cases hsb : packageShouldBuild n v <;> by_cases hr : n.r = some "nam" <;>
        simp [hsp, hsb, hr, List.countP_append, List.countP_cons, isChildCreate, ih,
          apply_ite (List.countP isChildCreate)]
    | some sp =>
      by_cases hr : n.r = some "nam"
      · have hcond : (!(memB sp.key seen) && !(n.r == some "nam")) = false := by
          simp [hr]
        have ih0 : ∀ s' : List String,
            (packageLoop n rest s').countP isChildCreate = 0 := by
          intro s'
          rw [ih s', if_pos hr]
        by_cases hnam : n = (⟨none, some "nam"⟩ : ContextName)
        · subst hnam
          by_cases hsb : packageShouldBuild ⟨none, some "nam"⟩ v <;>
            simp [hsp, hcond, hsb, List.countP_append, isChildCreate,
              List.countP_cons, ih0, apply_ite (List.countP isChildCreate)]
        · by_cases hsb : packageShouldBuild n v <;>
            simp [hsp, hcond, hsb, hnam, hr, List.countP_append, isChildCreate,
              List.countP_cons, ih0, apply_ite (List.countP isChildCreate)]
      · have hnr : (n.r == some "nam") = false := by
          simp [hr]
        have hnam : n ≠ (⟨none, some "nam"⟩ : ContextName) := by
          intro hq
          rw [hq] at hr
          exact hr rfl
        by_cases hk : memB sp.key seen <;>
        by_cases hsb : packageShouldBuild n v <;>
          simp [hsp, hnr, hnam, hk, hsb, hr, List.countP_append, isChildCreate,
            List.countP_cons, ih, apply_ite (List.countP isChildCreate), Nat.add_comm]

theorem newKeyCount_eq_distinct (vs : List Var) (seen : List String) :
    newKeyCount vs seen = distinctKeys ((subKeys vs).filter (fun k => !(memB k seen))) := by
  induction vs generalizing seen with
  | nil => simp [newKeyCount, subKeys, distinctKeys]
  | cons v rest ih =>
    unfold newKeyCount subKeys
    cases hsp : v.subpackage with
    | none =>
      simp only [List.filterMap_cons, hsp, Option.map_none']
      exact ih seen
    | some sp =>
      simp only [List.filterMap_cons, hsp, Option.map_some']
      by_cases hk : memB sp.key seen
      · simp only [List.filter_cons, hk, Bool.not_true, Bool.false_eq_true, if_false]
        exact ih seen
      · simp only [List.filter_cons, hk, Bool.not_false, if_true]
        rw [distinctKeys, List.filter_filter, ih (sp.key :: seen)]
        congr 1
        apply congrArg
        apply List.filter_congr
        intro a _
        simp only [memB, Bool.not_or]

theorem base_total (n : ContextName) :
    Filters.base n = "MFSimulationBase" ∨ Filters.base n = "MFModel"
    ∨ Filters.base n = "MFPackage" := by
  unfold Filters.base
  split
  · exact Or.inl rfl
  · split
    · exact Or.inr (Or.inl rfl)
    · exact Or.inr (Or.inr rfl)

theorem filter_true_of_empty_seen (ks : List String) :
    ks.filter (fun k => !(memB k [])) = ks := by
  induction ks with
  | nil => rfl
  | cons k rest ih => simp [List.filter_cons, memB, ih]

/-- C7 (amended): the number of child-package-construction statements a
context emits equals the number of distinct subpackage-reference keys among
its variables — each key's first occurrence emits exactly one — except in
name-file package contexts (right component `"nam"`, package archetype),
which emit none. -/
theorem init_child_package_dedup (ctx : Context) :
    (initStmts ctx).countP isChildCreate
      = if Filters.base ctx.name = "MFPackage" ∧ ctx.name.r = some "nam" then 0
        else distinctKeys (subKeys (ctx.vars.map (fun p => p.2))) := by
  unfold initStmts
  rcases base_total ctx.name with hb | hb | hb
  · rw [if_pos hb]
    rw [if_neg (by rw [hb]; simp)]
    rw [countP_simModelLoop, newKeyCount_eq_distinct, filter_true_of_empty_seen]
  · rw [if_neg (by rw [hb]; simp), if_pos hb]
    rw [if_neg (by rw [hb]; simp)]
    rw [countP_simModelLoop, newKeyCount_eq_distinct, filter_true_of_empty_seen]
  · rw [if_neg (by rw [hb]; simp), if_neg (by rw [hb]; simp)]
    rw [countP_packageLoop]
    by_cases hr : ctx.name.r = some "nam"
    · rw [if_pos hr, if_pos ⟨hb, hr⟩]
    · rw [if_neg hr, if_neg (by intro hc; exact hr hc.2)]
      rw [newKeyCount_eq_distinct, filter_true_of_empty_seen]

/-- C7 counterexample: a package-archetype context whose right component is
the name-file marker emits no child-package-construction statement at all,
even though two of its variables share one subpackage-reference key — the
claim demands exactly one such statement for every context. -/
theorem init_namefile_package_builds_no_child :
    Filters.base namPkgCtx.name = "MFPackage"
    ∧ (namPkgCtx.vars.map (fun p => p.2.subpackage)) = [some tsRef, some tsRef]
    ∧ (initStmts namPkgCtx).countP isChildCreate = 0
    ∧ Filters.init namPkgCtx = [] :=
  ⟨rfl, rfl, rfl, rfl⟩
